import Mathlib

/-!
Verification of the alert command-dispatch fragment of the `thirtyfour`
WebDriver client (`src/thirtyfour/src/alert.rs`).

The file shallowly embeds the data model and operations of that fragment:

* the `Alert` facade and the four `SessionHandle` alert operations are
  translated directly from `alert.rs`;
* the command dispatch pipeline (`Command`, the wire encoder, the transport
  invoker, the response decoder and the `cmd` primitive) together with
  `TypingData` live elsewhere in the repository and are not part of the
  provided sources, so they are modelled from the specification
  (sections 3, 4.1-4.4 and 7 of the spec); each such definition carries a
  doc comment starting with `Modelled from the spec:`.

Effects are made explicit: the transport invoker is a parameter of the
session handle (a pure function from wire requests to raw outcomes), and
every operation returns, next to its result, the list of wire requests it
issued, so that "sends exactly one command" is a provable statement.
-/

namespace Thirtyfour

/-- Modelled from the spec: JSON values, as carried by protocol request and
response bodies (the repository uses `serde_json::Value`, not in the
provided sources). -/
inductive Json where
  | null : Json
  | bool (b : Bool) : Json
  | num (n : Int) : Json
  | str (s : String) : Json
  | arr (elems : List Json) : Json
  | obj (fields : List (String × Json)) : Json

/-- Look up a field of a JSON object; `none` on non-objects and missing keys. -/
def Json.get (j : Json) (key : String) : Option Json :=
  match j with
  | Json.obj fields => List.lookup key fields
  | _ => none

/-- Modelled from the spec: symbolic key actions ("named key actions such as
modifier-down/up", spec section 3); the repository's `Key` enum is not in the
provided sources. A representative subset suffices for the claims. -/
inductive Key where
  | control : Key
  | alt : Key
  | shift : Key
  | enter : Key

/-- Modelled from the spec: the driver-specific marker characters for
symbolic key actions (the W3C WebDriver private-use-area codepoints,
"the representation the remote driver expects", spec section 4.1). -/
def Key.markerChars : Key → List Char
  | Key.control => ['\uE009']
  | Key.alt => ['\uE00A']
  | Key.shift => ['\uE008']
  | Key.enter => ['\uE007']

/-- The marker of a key action, as a string. -/
def Key.marker (k : Key) : String :=
  String.mk k.markerChars

/-- Modelled from the spec: one unit of a typing-input sequence: a literal
character or a symbolic key action (spec section 3, `TypingData`). -/
inductive InputUnit where
  | ch (c : Char) : InputUnit
  | key (k : Key) : InputUnit

/-- Rendering of one input unit into outgoing characters: a literal
character stands for itself, a key action expands to its marker. -/
def InputUnit.renderChars : InputUnit → List Char
  | InputUnit.ch c => [c]
  | InputUnit.key k => k.markerChars

/-- Modelled from the spec: `TypingData` is an ordered sequence of typed
input units (spec section 3); the repository's definition is not in the
provided sources. -/
structure TypingData where
  units : List InputUnit

/-- Modelled from the spec: constructing `TypingData` from plain text keeps
every character a literal character ("construction from plain text must not
reinterpret characters as key actions", spec section 3). -/
def TypingData.ofString (s : String) : TypingData :=
  TypingData.mk (s.toList.map InputUnit.ch)

/-- Concatenated rendering of a unit sequence, order preserved. -/
def renderUnits : List InputUnit → List Char
  | [] => []
  | u :: us => u.renderChars ++ renderUnits us

/-- Modelled from the spec: rendering a typing sequence "concatenates
literal characters and expands symbolic key actions" (spec section 4.1). -/
def TypingData.render (t : TypingData) : String :=
  String.mk (renderUnits t.units)

/-- Modelled from the spec: the closed set of protocol commands; the alert
variants carry exactly the payload the operation requires (spec section 3). -/
inductive Command where
  | GetAlertText : Command
  | DismissAlert : Command
  | AcceptAlert : Command
  | SendAlertText (text : TypingData) : Command

/-- HTTP method of a wire request. -/
inductive HttpMethod where
  | get : HttpMethod
  | post : HttpMethod

/-- Modelled from the spec: a protocol request descriptor: method, path and
optional JSON body (spec section 4.1). -/
structure WireRequest where
  method : HttpMethod
  path : String
  body : Option Json

/-- Modelled from the spec: the wire encoder, mapping each alert command to
its protocol request (spec section 4.1): `GetAlertText` is a GET of the
session's alert-text resource with no body, `DismissAlert` and `AcceptAlert`
are POSTs of the alert-dismiss/alert-accept resources with empty JSON
bodies, and `SendAlertText` is a POST of the alert-text resource with body
`\x7b"text": <rendered text>\x7d`. -/
def encodeCommand (sessionId : String) : Command → WireRequest
  | Command.GetAlertText =>
      WireRequest.mk HttpMethod.get ("/session/" ++ sessionId ++ "/alert/text") none
  | Command.DismissAlert =>
      WireRequest.mk HttpMethod.post ("/session/" ++ sessionId ++ "/alert/dismiss")
        (some (Json.obj []))
  | Command.AcceptAlert =>
      WireRequest.mk HttpMethod.post ("/session/" ++ sessionId ++ "/alert/accept")
        (some (Json.obj []))
  | Command.SendAlertText text =>
      WireRequest.mk HttpMethod.post ("/session/" ++ sessionId ++ "/alert/text")
        (some (Json.obj [("text", Json.str text.render)]))

/-- Modelled from the spec: the error taxonomy of the dispatch pipeline
(spec section 7): transport-level failure, structured WebDriver protocol
error (code and message kept intact), and decode failure reporting the
expected type and the received `value` field (`none` when missing). -/
inductive WebDriverError where
  | transport (msg : String) : WebDriverError
  | protocol (code msg : String) : WebDriverError
  | decode (expected : String) (got : Option Json) : WebDriverError

/-- Modelled from the spec: the raw outcome of one transport exchange:
connection-level failure, a response whose body is not valid JSON, or a
status code with a decoded JSON body (spec section 4.2). -/
inductive RawOutcome where
  | connFail (msg : String) : RawOutcome
  | malformed : RawOutcome
  | resp (status : Nat) (body : Json) : RawOutcome

/-- Whether an HTTP status code indicates success. -/
def isSuccessStatus (status : Nat) : Bool :=
  decide (200 ≤ status) && decide (status < 300)

/-- Extract the WebDriver error object `\x7b"value": \x7b"error": e, "message": m\x7d\x7d`
from a response body, if present (spec section 8 gives the shape). -/
def decodeErrorObject (body : Json) : Option (String × String) :=
  match body.get "value" with
  | some v =>
      match v.get "error", v.get "message" with
      | some (Json.str e), some (Json.str m) => some (e, m)
      | _, _ => none
  | none => none

/-- Modelled from the spec: a decoded protocol response; exists only for the
duration of one dispatch call and carries the parsed JSON body whose `value`
field is extracted by typed operations (spec section 3). -/
structure CmdResponse where
  body : Json

/-- Modelled from the spec: the response-decoder step of `cmd`: a transport
failure or malformed body is a `TransportError`; a success status yields the
parsed response; a non-success status with a decodable WebDriver error
payload is a `ProtocolError` surfacing code and message intact (spec
sections 4.2, 4.3 and 7). -/
def dispatchOutcome (o : RawOutcome) : Except WebDriverError CmdResponse :=
  match o with
  | RawOutcome.connFail msg => Except.error (WebDriverError.transport msg)
  | RawOutcome.malformed => Except.error (WebDriverError.transport "malformed response")
  | RawOutcome.resp status body =>
      if isSuccessStatus status then
        Except.ok (CmdResponse.mk body)
      else
        match decodeErrorObject body with
        | some em => Except.error (WebDriverError.protocol em.1 em.2)
        | none => Except.error (WebDriverError.transport "undecodable error response")

/-- Modelled from the spec: conversion of the response's `value` field to a
text value (the `value::<String>()` call of the source): a JSON string
yields exactly that string; a missing, null or incompatible `value` yields a
`DecodeError` reporting expected versus received shape (spec section 4.3). -/
def CmdResponse.valueString (r : CmdResponse) : Except WebDriverError String :=
  match r.body.get "value" with
  | some (Json.str s) => Except.ok s
  | some v => Except.error (WebDriverError.decode "String" (some v))
  | none => Except.error (WebDriverError.decode "String" none)

/-- Modelled from the spec: the session handle owns the session identity and
endpoint (read-only after creation) and a transport capability performing
one JSON-over-HTTP exchange per request (spec sections 3, 4.2 and 6). -/
structure SessionHandle where
  sessionId : String
  transport : WireRequest → RawOutcome

/-- Modelled from the spec: the `cmd` primitive: encode, invoke, decode, in
that order (spec section 4.4). Next to the result it returns the list of
wire requests issued — exactly one per invocation. -/
def SessionHandle.cmd (h : SessionHandle) (c : Command) :
    Except WebDriverError CmdResponse × List WireRequest :=
  let req := encodeCommand h.sessionId c
  (dispatchOutcome (h.transport req), [req])

/-- Get the active alert text (from `alert.rs`:
`self.cmd(Command::GetAlertText).await?.value::<String>()`). -/
def SessionHandle.get_alert_text (h : SessionHandle) :
    Except WebDriverError String × List WireRequest :=
  let r := h.cmd Command.GetAlertText
  (Except.bind r.1 CmdResponse.valueString, r.2)

/-- Dismiss the active alert (from `alert.rs`:
`self.cmd(Command::DismissAlert).await?; Ok(())`). -/
def SessionHandle.dismiss_alert (h : SessionHandle) :
    Except WebDriverError Unit × List WireRequest :=
  let r := h.cmd Command.DismissAlert
  (Except.bind r.1 (fun _ => Except.ok ()), r.2)

/-- Accept the active alert (from `alert.rs`:
`self.cmd(Command::AcceptAlert).await?; Ok(())`). -/
def SessionHandle.accept_alert (h : SessionHandle) :
    Except WebDriverError Unit × List WireRequest :=
  let r := h.cmd Command.AcceptAlert
  (Except.bind r.1 (fun _ => Except.ok ()), r.2)

/-- Send the specified keys to the active alert (from `alert.rs`:
`self.cmd(Command::SendAlertText(keys.into())).await?; Ok(())`). -/
def SessionHandle.send_alert_text (h : SessionHandle) (keys : TypingData) :
    Except WebDriverError Unit × List WireRequest :=
  let r := h.cmd (Command.SendAlertText keys)
  (Except.bind r.1 (fun _ => Except.ok ()), r.2)

/-- Struct for managing alerts (from `alert.rs`): its only field is a shared
reference to the session handle. -/
structure Alert where
  handle : SessionHandle

/-- Create a new Alert struct (from `alert.rs`): stores the given handle. -/
def Alert.new (handle : SessionHandle) : Alert :=
  Alert.mk handle

/-- Deprecated facade (from `alert.rs`): forwards to `get_alert_text`. -/
def Alert.text (a : Alert) : Except WebDriverError String × List WireRequest :=
  a.handle.get_alert_text

/-- Deprecated facade (from `alert.rs`): forwards to `dismiss_alert`. -/
def Alert.dismiss (a : Alert) : Except WebDriverError Unit × List WireRequest :=
  a.handle.dismiss_alert

/-- Deprecated facade (from `alert.rs`): forwards to `accept_alert`. -/
def Alert.accept (a : Alert) : Except WebDriverError Unit × List WireRequest :=
  a.handle.accept_alert

/-- Deprecated facade (from `alert.rs`): forwards to `send_alert_text`. -/
def Alert.send_keys (a : Alert) (keys : TypingData) :
    Except WebDriverError Unit × List WireRequest :=
  a.handle.send_alert_text keys

/-- A session handle whose transport always produces the given outcome;
used to evaluate the operations on concrete inputs. -/
def constHandle (o : RawOutcome) : SessionHandle :=
  SessionHandle.mk "sess1" (fun _ => o)

mutual

/-- Serialization of a JSON value to the bytes placed on the wire. -/
def Json.render : Json → String
  | Json.null => "null"
  | Json.bool true => "true"
  | Json.bool false => "false"
  | Json.num n => toString n
  | Json.str s => "\"" ++ s ++ "\""
  | Json.arr elems => "[" ++ Json.renderElems elems ++ "]"
  | Json.obj fields => "\x7b" ++ Json.renderFields fields ++ "\x7d"

/-- Serialization of the elements of a JSON array, comma separated. -/
def Json.renderElems : List Json → String
  | [] => ""
  | [j] => Json.render j
  | j :: rest => Json.render j ++ "," ++ Json.renderElems rest

/-- Serialization of the fields of a JSON object, comma separated. -/
def Json.renderFields : List (String × Json) → String
  | [] => ""
  | [f] => "\"" ++ f.1 ++ "\":" ++ Json.render f.2
  | f :: rest => "\"" ++ f.1 ++ "\":" ++ Json.render f.2 ++ "," ++ Json.renderFields rest

end

/-- The name of an HTTP method as placed on the request line. -/
def HttpMethod.renderBytes : HttpMethod → String
  | HttpMethod.get => "GET"
  | HttpMethod.post => "POST"

/-- The bytes of an encoded request, modulo transport framing: request line
followed by the serialized body, if any. -/
def WireRequest.renderBytes (r : WireRequest) : String :=
  r.method.renderBytes ++ " " ++ r.path ++
    match r.body with
    | none => ""
    | some b => "\n" ++ b.render

/-- Rendering a plain-character sequence keeps exactly those characters. -/
theorem renderUnits_map_ch (l : List Char) :
    renderUnits (l.map InputUnit.ch) = l := by
  induction l with
  | nil => rfl
  | cons c cs ih => simp [renderUnits, InputUnit.renderChars, ih]

/-- Rendering of typing data built from plain text is that text itself. -/
theorem render_ofString (s : String) : (TypingData.ofString s).render = s := by
  cases s with
  | mk data =>
      show String.mk (renderUnits ((String.mk data).toList.map InputUnit.ch)) = String.mk data
      rw [show (String.mk data).toList = data from rfl, renderUnits_map_ch]

/-- C1: each deprecated `Alert` facade method (`text`, `dismiss`, `accept`,
`send_keys`) issues exactly the same command and yields exactly the same
result or error as the corresponding `SessionHandle` method
(`get_alert_text`, `dismiss_alert`, `accept_alert`, `send_alert_text`)
called directly with identical arguments; arguments are forwarded unchanged
and errors are not intercepted or altered. -/
theorem claim_C1_facade_forwarding (h : SessionHandle) :
    (Alert.new h).text = h.get_alert_text ∧
    (Alert.new h).dismiss = h.dismiss_alert ∧
    (Alert.new h).accept = h.accept_alert ∧
    ∀ keys : TypingData, (Alert.new h).send_keys keys = h.send_alert_text keys :=
  ⟨rfl, rfl, rfl, fun _ => rfl⟩

/-- C4: each typed alert operation equals a single `cmd` invocation of the
matching `Command` variant followed by a type-specific extraction of the
value, and its request trace is exactly the one encoded command — so each
operation sends its command exactly once and has no other effect. -/
theorem claim_C4_single_cmd_invocation (h : SessionHandle) :
    h.get_alert_text =
      (Except.bind (h.cmd Command.GetAlertText).1 CmdResponse.valueString,
        [encodeCommand h.sessionId Command.GetAlertText]) ∧
    h.dismiss_alert =
      (Except.bind (h.cmd Command.DismissAlert).1 (fun _ => Except.ok ()),
        [encodeCommand h.sessionId Command.DismissAlert]) ∧
    h.accept_alert =
      (Except.bind (h.cmd Command.AcceptAlert).1 (fun _ => Except.ok ()),
        [encodeCommand h.sessionId Command.AcceptAlert]) ∧
    ∀ keys : TypingData, h.send_alert_text keys =
      (Except.bind (h.cmd (Command.SendAlertText keys)).1 (fun _ => Except.ok ()),
        [encodeCommand h.sessionId (Command.SendAlertText keys)]) :=
  ⟨rfl, rfl, rfl, fun _ => rfl⟩

/-- C6: sending plain text puts exactly the literal characters of the input
into the request body with no key-action expansion: converting plain text
into `TypingData` renders back to the same text, and the issued request for
it carries the body with that literal text. -/
theorem claim_C6_send_literal_text (s : String) :
    (TypingData.ofString s).render = s ∧
    ∀ h : SessionHandle, (h.send_alert_text (TypingData.ofString s)).2 =
      [WireRequest.mk HttpMethod.post ("/session/" ++ h.sessionId ++ "/alert/text")
        (some (Json.obj [("text", Json.str s)]))] := by
  refine ⟨render_ofString s, fun h => ?_⟩
  show [encodeCommand h.sessionId (Command.SendAlertText (TypingData.ofString s))] = _
  rw [encodeCommand, render_ofString]

/-- C7: a symbolic modifier key action followed by literal characters
renders as the modifier's driver-specific marker concatenated before the
literal characters, order preserved; in particular control-down followed by
"a" is sent as the body whose text is the control marker followed by "a". -/
theorem claim_C7_modifier_rendering (k : Key) (s : String) :
    TypingData.render (TypingData.mk (InputUnit.key k :: (TypingData.ofString s).units)) =
      k.marker ++ s ∧
    ∀ h : SessionHandle,
      (h.send_alert_text (TypingData.mk [InputUnit.key Key.control, InputUnit.ch 'a'])).2 =
        [WireRequest.mk HttpMethod.post ("/session/" ++ h.sessionId ++ "/alert/text")
          (some (Json.obj [("text", Json.str (Key.control.marker ++ "a"))]))] := by
  constructor
  · cases s with
    | mk data =>
        show String.mk (k.markerChars ++ renderUnits (data.map InputUnit.ch)) = _
        rw [renderUnits_map_ch]
        rfl
  · intro h
    rfl

/-- C8: the wire encoder maps `GetAlertText` to a GET of the session's
alert-text resource with no body, and `DismissAlert` / `AcceptAlert` to
POSTs of the session's alert-dismiss / alert-accept resources with empty
JSON bodies. -/
theorem claim_C8_wire_encoding (sid : String) :
    encodeCommand sid Command.GetAlertText =
      WireRequest.mk HttpMethod.get ("/session/" ++ sid ++ "/alert/text") none ∧
    encodeCommand sid Command.DismissAlert =
      WireRequest.mk HttpMethod.post ("/session/" ++ sid ++ "/alert/dismiss")
        (some (Json.obj [])) ∧
    encodeCommand sid Command.AcceptAlert =
      WireRequest.mk HttpMethod.post ("/session/" ++ sid ++ "/alert/accept")
        (some (Json.obj [])) :=
  ⟨rfl, rfl, rfl⟩

/-- C9: wire encoding is deterministic: identical command values under the
same session produce identical request descriptors and byte-identical
serialized requests, modulo transport framing. -/
theorem claim_C9_encoding_deterministic (sid₁ sid₂ : String) (c₁ c₂ : Command)
    (hs : sid₁ = sid₂) (hc : c₁ = c₂) :
    encodeCommand sid₁ c₁ = encodeCommand sid₂ c₂ ∧
    (encodeCommand sid₁ c₁).renderBytes = (encodeCommand sid₂ c₂).renderBytes := by
  subst hs
  subst hc
  exact ⟨rfl, rfl⟩

/-- Witness for C9 at concrete inputs. -/
theorem claim_C9_encoding_deterministic_witness :
    encodeCommand "sess1" Command.AcceptAlert = encodeCommand "sess1" Command.AcceptAlert ∧
    (encodeCommand "sess1" Command.AcceptAlert).renderBytes =
      (encodeCommand "sess1" Command.AcceptAlert).renderBytes :=
  claim_C9_encoding_deterministic "sess1" "sess1" Command.AcceptAlert Command.AcceptAlert
    rfl rfl

/-- C10: the Alert facade's only state is the stored session handle:
`Alert.new` is exactly the structure constructor (it stores the handle and
dispatches nothing), every method reads that same handle unchanged, and the
requests a method issues use the stored session identity unchanged. -/
theorem claim_C10_facade_state (h : SessionHandle) :
    Alert.new h = Alert.mk h ∧
    (Alert.new h).handle = h ∧
    (∀ a : Alert, a.text = a.handle.get_alert_text) ∧
    (∀ a : Alert, a.dismiss = a.handle.dismiss_alert) ∧
    (∀ a : Alert, a.accept = a.handle.accept_alert) ∧
    (∀ a : Alert, ∀ keys : TypingData, a.send_keys keys = a.handle.send_alert_text keys) ∧
    (∀ a : Alert, (a.dismiss).2 = [encodeCommand a.handle.sessionId Command.DismissAlert]) :=
  ⟨rfl, rfl, fun _ => rfl, fun _ => rfl, fun _ => rfl, fun _ _ => rfl, fun _ => rfl⟩

/-- C2: on a success response whose body has a string `value`,
`get_alert_text` returns exactly that string; when `value` is present but
not a string (null, number, array, object, boolean) it returns a
`DecodeError` carrying the received value, and when `value` is missing it
returns a `DecodeError` reporting the missing field — never a default
empty string. -/
theorem claim_C2_get_alert_text_decoding (h : SessionHandle) (status : Nat) (body : Json)
    (hresp : h.transport (encodeCommand h.sessionId Command.GetAlertText) =
      RawOutcome.resp status body)
    (hok : isSuccessStatus status = true) :
    (∀ s : String, body.get "value" = some (Json.str s) →
      (h.get_alert_text).1 = Except.ok s) ∧
    (∀ v : Json, body.get "value" = some v → (∀ s : String, v ≠ Json.str s) →
      (h.get_alert_text).1 = Except.error (WebDriverError.decode "String" (some v))) ∧
    (body.get "value" = none →
      (h.get_alert_text).1 = Except.error (WebDriverError.decode "String" none)) := by
  have hval : (h.get_alert_text).1 = CmdResponse.valueString (CmdResponse.mk body) := by
    simp [SessionHandle.get_alert_text, SessionHandle.cmd, hresp, dispatchOutcome, hok,
      Except.bind]
  refine ⟨?_, ?_, ?_⟩
  · intro s hs
    rw [hval]
    simp [CmdResponse.valueString, hs]
  · intro v hv hne
    rw [hval]
    cases v with
    | str s => exact absurd rfl (hne s)
    | null => simp [CmdResponse.valueString, hv]
    | bool b => simp [CmdResponse.valueString, hv]
    | num n => simp [CmdResponse.valueString, hv]
    | arr elems => simp [CmdResponse.valueString, hv]
    | obj fields => simp [CmdResponse.valueString, hv]
  · intro hnone
    rw [hval]
    simp [CmdResponse.valueString, hnone]

/-- Witness for C2: on the response with body containing value
"Are you sure?" the operation returns exactly that string. -/
theorem claim_C2_get_alert_text_decoding_witness :
    ((constHandle (RawOutcome.resp 200
        (Json.obj [("value", Json.str "Are you sure?")]))).get_alert_text).1 =
      Except.ok "Are you sure?" :=
  (claim_C2_get_alert_text_decoding
    (constHandle (RawOutcome.resp 200 (Json.obj [("value", Json.str "Are you sure?")])))
    200 (Json.obj [("value", Json.str "Are you sure?")]) rfl (by decide)).1
    "Are you sure?" rfl

/-- C3: on any response with a success HTTP status and a valid JSON body
holding no WebDriver error object, `dismiss_alert`, `accept_alert` and
`send_alert_text` succeed with the unit value, whether or not the body has
a decodable `value` field. -/
theorem claim_C3_unit_ops_succeed (h : SessionHandle) (status : Nat) (body : Json)
    (hok : isSuccessStatus status = true)
    (_hnoerr : decodeErrorObject body = none) :
    (h.transport (encodeCommand h.sessionId Command.DismissAlert) =
        RawOutcome.resp status body →
      (h.dismiss_alert).1 = Except.ok ()) ∧
    (h.transport (encodeCommand h.sessionId Command.AcceptAlert) =
        RawOutcome.resp status body →
      (h.accept_alert).1 = Except.ok ()) ∧
    ∀ keys : TypingData,
      h.transport (encodeCommand h.sessionId (Command.SendAlertText keys)) =
        RawOutcome.resp status body →
      (h.send_alert_text keys).1 = Except.ok () := by
  refine ⟨fun hresp => ?_, fun hresp => ?_, fun keys hresp => ?_⟩ <;>
    simp [SessionHandle.dismiss_alert, SessionHandle.accept_alert,
      SessionHandle.send_alert_text, SessionHandle.cmd, hresp, dispatchOutcome, hok,
      Except.bind]

/-- Witness for C3: a 200 response whose body is JSON `null` (no decodable
value field at all) makes all three unit operations succeed. -/
theorem claim_C3_unit_ops_succeed_witness :
    ((constHandle (RawOutcome.resp 200 Json.null)).dismiss_alert).1 = Except.ok () ∧
    ((constHandle (RawOutcome.resp 200 Json.null)).accept_alert).1 = Except.ok () ∧
    ((constHandle (RawOutcome.resp 200 Json.null)).send_alert_text
        (TypingData.ofString "hi")).1 = Except.ok () :=
  ⟨(claim_C3_unit_ops_succeed (constHandle (RawOutcome.resp 200 Json.null)) 200 Json.null
      (by decide) rfl).1 rfl,
   (claim_C3_unit_ops_succeed (constHandle (RawOutcome.resp 200 Json.null)) 200 Json.null
      (by decide) rfl).2.1 rfl,
   (claim_C3_unit_ops_succeed (constHandle (RawOutcome.resp 200 Json.null)) 200 Json.null
      (by decide) rfl).2.2 (TypingData.ofString "hi") rfl⟩

/-- C5: whenever the underlying `cmd` call fails with some error — of
transport, protocol or decode kind — the alert operation returns that very
error unchanged; no error is hidden, translated or fatal. -/
theorem claim_C5_error_propagation (h : SessionHandle) (e : WebDriverError) :
    ((h.cmd Command.GetAlertText).1 = Except.error e →
      (h.get_alert_text).1 = Except.error e) ∧
    ((h.cmd Command.DismissAlert).1 = Except.error e →
      (h.dismiss_alert).1 = Except.error e) ∧
    ((h.cmd Command.AcceptAlert).1 = Except.error e →
      (h.accept_alert).1 = Except.error e) ∧
    ∀ keys : TypingData,
      (h.cmd (Command.SendAlertText keys)).1 = Except.error e →
      (h.send_alert_text keys).1 = Except.error e := by
  refine ⟨fun hc => ?_, fun hc => ?_, fun hc => ?_, fun keys hc => ?_⟩ <;>
    simp [SessionHandle.get_alert_text, SessionHandle.dismiss_alert,
      SessionHandle.accept_alert, SessionHandle.send_alert_text, hc, Except.bind]

/-- Witness for C5: a connection failure surfaces from `get_alert_text` as
the same transport error. -/
theorem claim_C5_error_propagation_witness :
    ((constHandle (RawOutcome.connFail "connection refused")).get_alert_text).1 =
      Except.error (WebDriverError.transport "connection refused") :=
  (claim_C5_error_propagation (constHandle (RawOutcome.connFail "connection refused"))
    (WebDriverError.transport "connection refused")).1 rfl

end Thirtyfour
